import Mathlib

/-!
Verification of the raw-socket client/server exchange in
`source/testsuite/BasicNetworkingTestSuite.cpp`.

The embedding models:
- the byte payloads `"hello"`, `"OK"`, `"END_MESSAGE"` as lists of byte values;
- the 64-byte receive buffer (`std::array<char, 64>`) as a `List Nat` of
  length 64, with `recv` writing the received bytes at the front and keeping
  the old (stale) contents beyond them, the explicit null-termination
  `buffer[bytesRead] = 0`, and the `boost::string_ref(buffer.data())`
  comparison as a C-string extraction (`takeWhile (· ≠ 0)`);
- `RAIIRawSocketInfos` (fields `res`, `socketFd`, `clientFd`, sentinel `-1`
  resp. null) and its destructor as a function emitting close/free events;
- `setup_server` and `setup_client` as functions of an environment that fixes
  the return value of every OS call (`getaddrinfo` status, `socket`, `bind`,
  `listen`, `accept`, `connect` results, `send` return values, and the
  sequence of `recv` outcomes), producing the run's result (normal return,
  thrown error message, or blocked), the resource acquisition/release event
  trace, and the wire-level I/O trace.
-/

namespace BasicNetworking

/-- Byte values of the sentinel literal `"END_MESSAGE"`. -/
def END_MESSAGE : List Nat := [69, 78, 68, 95, 77, 69, 83, 83, 65, 71, 69]

/-- Byte values of the acknowledgement literal `"OK"`. -/
def OK_MSG : List Nat := [79, 75]

/-- Byte values of the client's opening literal `"hello"`. -/
def helloMsg : List Nat := [104, 101, 108, 108, 111]

/-- `recv` writing `p` at the front of buffer `buf`: bytes beyond
`p.length` keep their previous (stale) contents. -/
def writeBytes (buf p : List Nat) : List Nat := p ++ buf.drop p.length

/-- The C-string the buffer holds: its bytes up to the first null byte
(`boost::string_ref(buffer.data())` uses `strlen`). -/
def cString (buf : List Nat) : List Nat := buf.takeWhile (fun b => b ≠ 0)

/-- One `recv` outcome on the server side: a failed read (`recv` returns
`-1`) or delivered bytes `p` (`p = []` is the zero-length orderly-shutdown
read), paired with the value the subsequent `send` of `"OK"` would return. -/
inductive ServerMsg
  | recvErr
  | msg (p : List Nat) (ackRet : Int)
deriving DecidableEq

/-- How the server's receive loop ended. -/
inductive LoopOutcome
  | finished
  | recvError
  | sendError
  | blocked
deriving DecidableEq

/-- A run of the server's receive loop: the payloads passed to `send`
(in order) and how the loop ended. -/
structure LoopRun where
  sent : List (List Nat)
  outcome : LoopOutcome
deriving DecidableEq

/-- The server's receive loop
(`while ((bytesRead = recv(clientFd, buffer.data(), 63, 0)) > 0) { ... }`
followed by `if (bytesRead == -1) throw`): null-terminate at `bytesRead`,
break when the buffer's C-string equals `END_MESSAGE`, otherwise send the
2-byte `"OK"` (throwing when the send does not return 2) and receive again.
`blocked` models exhausting the finite outcome trace while the code would
block in `recv`. -/
def serverLoop (buf : List Nat) : List ServerMsg → LoopRun
  | [] => ⟨[], .blocked⟩
  | .recvErr :: _ => ⟨[], .recvError⟩
  | .msg p w :: rest =>
    let q := p.take 63
    if q = [] then ⟨[], .finished⟩
    else
      let buf2 := (writeBytes buf q).set q.length 0
      if cString buf2 = END_MESSAGE then ⟨[], .finished⟩
      else if w ≠ 2 then ⟨[OK_MSG], .sendError⟩
      else
        let r := serverLoop buf2 rest
        ⟨OK_MSG :: r.sent, r.outcome⟩

/-- The fields of `RAIIRawSocketInfos`: whether the `addrinfo` list `res` is
non-null, and the two descriptors with sentinel `-1`. -/
structure RAIIRawSocketInfos where
  res : Bool
  socketFd : Int
  clientFd : Int
deriving DecidableEq

/-- The constructor's state: `res(nullptr), socketFd(-1), clientFd(-1)`. -/
def initSocketInfos : RAIIRawSocketInfos := ⟨false, -1, -1⟩

/-- Resource events of a run: acquisitions (`getaddrinfo` success, `socket`,
`accept`) and releases (`closesocket`, `freeaddrinfo`). -/
inductive Event
  | gotAddr
  | gotSock (fd : Int)
  | gotClient (fd : Int)
  | closedSock (fd : Int)
  | freedAddr
deriving DecidableEq

/-- The destructor of `RAIIRawSocketInfos`: close `clientFd` if not `-1`,
then close `socketFd` if not `-1`, then free `res` if non-null. -/
def destructRAII (s : RAIIRawSocketInfos) : List Event :=
  (if s.clientFd ≠ -1 then [Event.closedSock s.clientFd] else []) ++
  (if s.socketFd ≠ -1 then [Event.closedSock s.socketFd] else []) ++
  (if s.res then [Event.freedAddr] else [])

/-- Descriptors closed during a run, in order. -/
def closedFds : List Event → List Int
  | [] => []
  | Event.closedSock fd :: r => fd :: closedFds r
  | _ :: r => closedFds r

/-- Descriptors acquired during a run (from `socket` and `accept`), in
order. -/
def acquiredFds : List Event → List Int
  | [] => []
  | Event.gotSock fd :: r => fd :: acquiredFds r
  | Event.gotClient fd :: r => fd :: acquiredFds r
  | _ :: r => acquiredFds r

/-- How a whole role procedure ended: normal return, a thrown
`std::runtime_error` with the given message, or blocked in an OS call whose
outcome the finite environment no longer provides. -/
inductive RunResult
  | ok
  | error (msg : String)
  | blocked
deriving DecidableEq

/-- Environment of one `setup_server` run: the return values of each OS
call, the initial (uninitialized) buffer contents, and the `recv`/`send`
outcomes of the loop. -/
structure ServerEnv where
  gaiStatus : Int
  socketRet : Int
  bindRet : Int
  listenRet : Int
  acceptRet : Int
  buf : List Nat
  msgs : List ServerMsg
deriving DecidableEq

/-- Observable outcome of a `setup_server` run. -/
structure ServerRun where
  result : RunResult
  resEvents : List Event
  acks : List (List Nat)
deriving DecidableEq

/-- `setup_server`: `getaddrinfo` (non-zero status throws), `socket`,
`bind`, `listen`, `accept` (each `-1` throws), then the receive loop; on
every exit path the `RAIIRawSocketInfos` destructor releases what was
acquired. A `blocked` loop never reaches the destructor. -/
def setup_server (env : ServerEnv) : ServerRun :=
  if env.gaiStatus ≠ 0 then
    ⟨.error "getaddrinfo error", destructRAII initSocketInfos, []⟩
  else
    let s1 : RAIIRawSocketInfos := ⟨true, -1, -1⟩
    if env.socketRet = -1 then
      ⟨.error "socket error", Event.gotAddr :: destructRAII s1, []⟩
    else
      let s2 : RAIIRawSocketInfos := ⟨true, env.socketRet, -1⟩
      let acq2 := [Event.gotAddr, Event.gotSock env.socketRet]
      if env.bindRet = -1 then
        ⟨.error "bind error", acq2 ++ destructRAII s2, []⟩
      else if env.listenRet = -1 then
        ⟨.error "listen error", acq2 ++ destructRAII s2, []⟩
      else if env.acceptRet = -1 then
        ⟨.error "client error", acq2 ++ destructRAII s2, []⟩
      else
        let s3 : RAIIRawSocketInfos := ⟨true, env.socketRet, env.acceptRet⟩
        let acq3 := acq2 ++ [Event.gotClient env.acceptRet]
        let r := serverLoop env.buf env.msgs
        match r.outcome with
        | .finished => ⟨.ok, acq3 ++ destructRAII s3, r.sent⟩
        | .recvError => ⟨.error "recv error", acq3 ++ destructRAII s3, r.sent⟩
        | .sendError => ⟨.error "send error", acq3 ++ destructRAII s3, r.sent⟩
        | .blocked => ⟨.blocked, acq3, r.sent⟩

/-- The client's single `recv` outcome: failed read (`-1`, thrown) or
delivered bytes (`[]` is the zero-length orderly-shutdown read). -/
inductive ClientRecv
  | recvErr
  | recvData (p : List Nat)
deriving DecidableEq

/-- Wire-level I/O of the client: payloads passed to `send` and `recv`
calls with their maximum length. -/
inductive WireEv
  | sentB (p : List Nat)
  | recvCall (maxLen : Nat)
deriving DecidableEq

/-- Environment of one `setup_client` run. -/
structure ClientEnv where
  gaiStatus : Int
  socketRet : Int
  connectRet : Int
  sendHelloRet : Int
  recvAck : ClientRecv
  sendEndRet : Int
  buf : List Nat
deriving DecidableEq

/-- Observable outcome of a `setup_client` run: result, resource events,
wire I/O, and the buffer contents after the acknowledgement `recv` was
null-terminated (when reached). -/
structure ClientRun where
  result : RunResult
  resEvents : List Event
  ioTrace : List WireEv
  ackBuf : Option (List Nat)
deriving DecidableEq

/-- `setup_client`: `getaddrinfo` (non-zero status throws), `socket`,
`connect` (each `-1` throws), `send("hello")` (return `≠ 5` throws),
`recv` into the 64-byte buffer with max length 63 (negative return throws,
then `buffer[bytesRead] = 0`), `send(END_MESSAGE)` (return `≠ 11` throws);
the destructor releases what was acquired on every exit path. -/
def setup_client (env : ClientEnv) : ClientRun :=
  if env.gaiStatus ≠ 0 then
    ⟨.error "getaddrinfo error", destructRAII initSocketInfos, [], none⟩
  else
    let s1 : RAIIRawSocketInfos := ⟨true, -1, -1⟩
    if env.socketRet = -1 then
      ⟨.error "socket error", Event.gotAddr :: destructRAII s1, [], none⟩
    else
      let s2 : RAIIRawSocketInfos := ⟨true, env.socketRet, -1⟩
      let acq := [Event.gotAddr, Event.gotSock env.socketRet]
      if env.connectRet = -1 then
        ⟨.error "connect error", acq ++ destructRAII s2, [], none⟩
      else if env.sendHelloRet ≠ 5 then
        ⟨.error "send error", acq ++ destructRAII s2, [WireEv.sentB helloMsg], none⟩
      else
        match env.recvAck with
        | .recvErr =>
          ⟨.error "recv error", acq ++ destructRAII s2,
            [WireEv.sentB helloMsg, WireEv.recvCall 63], none⟩
        | .recvData p =>
          let q := p.take 63
          let abuf := (writeBytes env.buf q).set q.length 0
          if env.sendEndRet ≠ 11 then
            ⟨.error "send error", acq ++ destructRAII s2,
              [WireEv.sentB helloMsg, WireEv.recvCall 63, WireEv.sentB END_MESSAGE],
              some abuf⟩
          else
            ⟨.ok, acq ++ destructRAII s2,
              [WireEv.sentB helloMsg, WireEv.recvCall 63, WireEv.sentB END_MESSAGE],
              some abuf⟩

theorem set_append_cons_zero (p l : List Nat) (hl : l ≠ []) :
    (p ++ l).set p.length 0 = p ++ (0 :: l.tail) := by
  induction p with
  | nil =>
    cases l with
    | nil => exact absurd rfl hl
    | cons b t => rfl
  | cons a p ih => simpa using ih

theorem takeWhile_append_zero (p t : List Nat) (h0 : 0 ∉ p) :
    (p ++ 0 :: t).takeWhile (fun b => b ≠ 0) = p := by
  induction p with
  | nil => rfl
  | cons a p ih =>
    have ha : a ≠ 0 := fun h => h0 (h ▸ List.mem_cons_self a p)
    have hp : 0 ∉ p := fun h => h0 (List.mem_cons_of_mem a h)
    simpa [List.takeWhile_cons, ha] using ih hp

theorem getElem_append_cons_zero (p t : List Nat) : (p ++ 0 :: t)[p.length]? = some 0 := by
  induction p with
  | nil => simp
  | cons a p ih => simpa using ih

theorem drop_ne_nil_of_lt (buf : List Nat) (n : Nat) (h : n < buf.length) :
    buf.drop n ≠ [] := by
  intro hnil
  have := List.drop_eq_nil_iff.mp hnil
  omega

/-- After a receive of a null-free payload `p` shorter than the buffer, the
null-terminated buffer's C-string is exactly `p`. -/
theorem cString_writeBytes (buf p : List Nat) (h : p.length < buf.length) (h0 : 0 ∉ p) :
    cString ((writeBytes buf p).set p.length 0) = p := by
  have hd : buf.drop p.length ≠ [] := drop_ne_nil_of_lt buf p.length h
  unfold writeBytes cString
  rw [set_append_cons_zero p (buf.drop p.length) hd]
  exact takeWhile_append_zero p (buf.drop p.length).tail h0

/-- One-step unfolding of the loop at a delivered message. -/
theorem serverLoop_cons_msg (buf p : List Nat) (w : Int) (rest : List ServerMsg) :
    serverLoop buf (ServerMsg.msg p w :: rest) =
      if p.take 63 = [] then ⟨[], .finished⟩
      else
        if cString ((writeBytes buf (p.take 63)).set (p.take 63).length 0) = END_MESSAGE then
          ⟨[], .finished⟩
        else if w ≠ 2 then ⟨[OK_MSG], .sendError⟩
        else
          ⟨OK_MSG :: (serverLoop ((writeBytes buf (p.take 63)).set (p.take 63).length 0) rest).sent,
            (serverLoop ((writeBytes buf (p.take 63)).set (p.take 63).length 0) rest).outcome⟩ :=
  rfl

/-- A null-free payload of length at most 63 stops the loop exactly when it
is the sentinel. -/
theorem serverLoop_step (buf p : List Nat) (w : Int) (rest : List ServerMsg)
    (hb : buf.length = 64) (hp : p.length ≤ 63) (h0 : 0 ∉ p) (hne : p ≠ []) :
    serverLoop buf (ServerMsg.msg p w :: rest) =
      if p = END_MESSAGE then ⟨[], .finished⟩
      else if w ≠ 2 then ⟨[OK_MSG], .sendError⟩
      else
        ⟨OK_MSG :: (serverLoop ((writeBytes buf p).set p.length 0) rest).sent,
          (serverLoop ((writeBytes buf p).set p.length 0) rest).outcome⟩ := by
  have htake : p.take 63 = p := List.take_of_length_le hp
  have hcs : cString ((writeBytes buf p).set p.length 0) = p :=
    cString_writeBytes buf p (by omega) h0
  rw [serverLoop_cons_msg, htake, hcs]
  simp [hne]

/-- The 13-byte payload `"END_MESSAGE\0X"`: the sentinel bytes, an embedded
null byte, then one more byte. -/
def nulPayloadC1 : List Nat := [69, 78, 68, 95, 77, 69, 83, 83, 65, 71, 69, 0, 88]

/-- Number of `closesocket` events on descriptor `fd` in a trace. -/
def countClosed (fd : Int) : List Event → Nat
  | [] => 0
  | Event.closedSock g :: r => (if g = fd then 1 else 0) + countClosed fd r
  | _ :: r => countClosed fd r

/-- Counterexample to C1 as stated: the claim promises that every received
message other than the sentinel is answered with the 2-byte `"OK"`, but for
the 13-byte payload `"END_MESSAGE\0X"` — whose content differs from the
11-byte sentinel — the strlen-based comparison stops at the embedded null
byte, matches the sentinel, and the loop stops without sending any `"OK"`
and without receiving again. -/
theorem server_loop_ack_cex :
    nulPayloadC1 ≠ END_MESSAGE ∧ nulPayloadC1.length ≤ 63 ∧
    serverLoop (List.replicate 64 0) [ServerMsg.msg nulPayloadC1 2] = ⟨[], .finished⟩ ∧
    (setup_server ⟨0, 3, 0, 0, 4, List.replicate 64 0,
        [ServerMsg.msg nulPayloadC1 2]⟩).result = .ok ∧
    (setup_server ⟨0, 3, 0, 0, 4, List.replicate 64 0,
        [ServerMsg.msg nulPayloadC1 2]⟩).acks = [] := by
  decide

/-- Claim C1 as amended: the server loop receives repeatedly; a message
whose C-string content (bytes up to the first null) equals the sentinel
stops the loop normally with no reply for that message — in particular the
literal `END_MESSAGE` payload does; every null-free, nonempty message that
differs from the sentinel is answered with the 2-byte `"OK"` followed by
another receive; and when `END_MESSAGE` is the very first message the whole
server run returns normally having sent no `"OK"`. -/
theorem server_loop_ack_protocol :
    (∀ buf rest w, buf.length = 64 →
      serverLoop buf (ServerMsg.msg END_MESSAGE w :: rest) = ⟨[], .finished⟩) ∧
    (∀ buf rest p, buf.length = 64 → p.length ≤ 63 → 0 ∉ p → p ≠ [] → p ≠ END_MESSAGE →
      serverLoop buf (ServerMsg.msg p 2 :: rest) =
        ⟨OK_MSG :: (serverLoop ((writeBytes buf p).set p.length 0) rest).sent,
          (serverLoop ((writeBytes buf p).set p.length 0) rest).outcome⟩) ∧
    (∀ env : ServerEnv, ∀ w, env.gaiStatus = 0 → env.socketRet ≠ -1 → env.bindRet ≠ -1 →
      env.listenRet ≠ -1 → env.acceptRet ≠ -1 → env.buf.length = 64 →
      env.msgs = [ServerMsg.msg END_MESSAGE w] →
      (setup_server env).result = .ok ∧ (setup_server env).acks = []) := by
  have hsent : ∀ buf rest w, buf.length = 64 →
      serverLoop buf (ServerMsg.msg END_MESSAGE w :: rest) = ⟨[], .finished⟩ := by
    intro buf rest w hb
    rw [serverLoop_step buf END_MESSAGE w rest hb (by decide) (by decide) (by decide)]
    simp
  refine ⟨hsent, ?_, ?_⟩
  · intro buf rest p hb hp h0 hne hnsent
    rw [serverLoop_step buf p 2 rest hb hp h0 hne]
    simp [hnsent]
  · intro env w h0 h1 h2 h3 h4 hb hm
    have hloop : serverLoop env.buf env.msgs = ⟨[], .finished⟩ := by
      rw [hm]; exact hsent env.buf [] w hb
    constructor <;> simp [setup_server, h0, h1, h2, h3, h4, hloop]

/-- Witness for C1 at concrete inputs. -/
theorem server_loop_ack_protocol_witness :
    serverLoop (List.replicate 64 0) [ServerMsg.msg END_MESSAGE 2] = ⟨[], .finished⟩ ∧
    serverLoop (List.replicate 64 0) [ServerMsg.msg helloMsg 2] =
      ⟨OK_MSG ::
          (serverLoop ((writeBytes (List.replicate 64 0) helloMsg).set helloMsg.length 0) []).sent,
        (serverLoop ((writeBytes (List.replicate 64 0) helloMsg).set helloMsg.length 0) []).outcome⟩ ∧
    (setup_server ⟨0, 3, 0, 0, 4, List.replicate 64 0, [ServerMsg.msg END_MESSAGE 2]⟩).result =
      .ok ∧
    (setup_server ⟨0, 3, 0, 0, 4, List.replicate 64 0, [ServerMsg.msg END_MESSAGE 2]⟩).acks = [] :=
  ⟨server_loop_ack_protocol.1 (List.replicate 64 0) [] 2 (by decide),
   server_loop_ack_protocol.2.1 (List.replicate 64 0) [] helloMsg (by decide) (by decide)
     (by decide) (by decide) (by decide),
   (server_loop_ack_protocol.2.2 ⟨0, 3, 0, 0, 4, List.replicate 64 0,
       [ServerMsg.msg END_MESSAGE 2]⟩ 2 rfl (by decide) (by decide) (by decide) (by decide)
       (by decide) rfl).1,
   (server_loop_ack_protocol.2.2 ⟨0, 3, 0, 0, 4, List.replicate 64 0,
       [ServerMsg.msg END_MESSAGE 2]⟩ 2 rfl (by decide) (by decide) (by decide) (by decide)
       (by decide) rfl).2⟩

/-- Claim C2: once connected, the client performs exactly send `"hello"`
(5 bytes), receive at most 63 bytes, send `"END_MESSAGE"` (11 bytes), and
returns normally — for every received acknowledgement value `p`, not only
`"OK"`, and with no further receive after the final send. -/
theorem client_fixed_sequence (env : ClientEnv) (p : List Nat)
    (h1 : env.gaiStatus = 0) (h2 : env.socketRet ≠ -1) (h3 : env.connectRet ≠ -1)
    (h4 : env.sendHelloRet = 5) (h5 : env.recvAck = .recvData p) (h6 : env.sendEndRet = 11) :
    (setup_client env).result = .ok ∧
    (setup_client env).ioTrace =
      [WireEv.sentB helloMsg, WireEv.recvCall 63, WireEv.sentB END_MESSAGE] ∧
    helloMsg.length = 5 ∧ END_MESSAGE.length = 11 := by
  refine ⟨?_, ?_, by decide, by decide⟩ <;>
    simp [setup_client, h1, h2, h3, h4, h5, h6]

/-- Witness for C2: the acknowledgement value is irrelevant — here the
server's reply is `"NO"` (bytes 78, 79) and the run is still complete. -/
theorem client_fixed_sequence_witness :
    (setup_client ⟨0, 3, 0, 5, .recvData [78, 79], 11, List.replicate 64 0⟩).result = .ok ∧
    (setup_client ⟨0, 3, 0, 5, .recvData [78, 79], 11, List.replicate 64 0⟩).ioTrace =
      [WireEv.sentB helloMsg, WireEv.recvCall 63, WireEv.sentB END_MESSAGE] ∧
    helloMsg.length = 5 ∧ END_MESSAGE.length = 11 :=
  client_fixed_sequence ⟨0, 3, 0, 5, .recvData [78, 79], 11, List.replicate 64 0⟩ [78, 79]
    rfl (by decide) (by decide) rfl rfl rfl

/-- Claim C3: a zero-length receive (orderly peer shutdown) terminates the
loop without a `ReceiveError` (the whole run returns normally), a failed
read terminates it with the `"recv error"` exception, and the two outcomes
are distinct. -/
theorem recv_zero_vs_recv_error :
    (∀ buf w rest, serverLoop buf (ServerMsg.msg [] w :: rest) = ⟨[], .finished⟩) ∧
    (∀ buf rest, serverLoop buf (ServerMsg.recvErr :: rest) = ⟨[], .recvError⟩) ∧
    (∀ env : ServerEnv, env.gaiStatus = 0 → env.socketRet ≠ -1 → env.bindRet ≠ -1 →
      env.listenRet ≠ -1 → env.acceptRet ≠ -1 →
      ((serverLoop env.buf env.msgs).outcome = .finished → (setup_server env).result = .ok) ∧
      ((serverLoop env.buf env.msgs).outcome = .recvError →
        (setup_server env).result = .error "recv error")) ∧
    LoopOutcome.finished ≠ LoopOutcome.recvError := by
  refine ⟨?_, ?_, ?_, by decide⟩
  · intro buf w rest
    rw [serverLoop_cons_msg]
    simp
  · intro buf rest
    rfl
  · intro env h0 h1 h2 h3 h4
    constructor
    · intro hfin
      simp [setup_server, h0, h1, h2, h3, h4, hfin]
    · intro herr
      simp [setup_server, h0, h1, h2, h3, h4, herr]

/-- Witness for C3 at concrete inputs. -/
theorem recv_zero_vs_recv_error_witness :
    serverLoop (List.replicate 64 0) [ServerMsg.msg [] 2] = ⟨[], .finished⟩ ∧
    serverLoop (List.replicate 64 0) [ServerMsg.recvErr] = ⟨[], .recvError⟩ ∧
    (setup_server ⟨0, 3, 0, 0, 4, List.replicate 64 0, [ServerMsg.recvErr]⟩).result =
      .error "recv error" ∧
    (setup_server ⟨0, 3, 0, 0, 4, List.replicate 64 0, [ServerMsg.msg [] 2]⟩).result = .ok :=
  ⟨recv_zero_vs_recv_error.1 (List.replicate 64 0) 2 [],
   recv_zero_vs_recv_error.2.1 (List.replicate 64 0) [],
   (recv_zero_vs_recv_error.2.2.1 ⟨0, 3, 0, 0, 4, List.replicate 64 0, [ServerMsg.recvErr]⟩
       rfl (by decide) (by decide) (by decide) (by decide)).2 (by decide),
   (recv_zero_vs_recv_error.2.2.1 ⟨0, 3, 0, 0, 4, List.replicate 64 0, [ServerMsg.msg [] 2]⟩
       rfl (by decide) (by decide) (by decide) (by decide)).1 (by decide)⟩

/-- A 13-byte payload whose first 11 bytes are the sentinel, followed by a
null byte and one more byte (`"END_MESSAGE\0X"`). -/
def nulPayload : List Nat := END_MESSAGE ++ [0, 88]

/-- Counterexample to C4: the sentinel comparison is a C-string comparison
(`boost::string_ref(buffer.data())` stops at the first null byte), not a
comparison of exactly the `bytesRead` received bytes: this 13-byte payload
differs from the 11-byte sentinel, yet the server treats it as the sentinel
and stops the loop without sending any `"OK"`. -/
theorem sentinel_exact_length_cex :
    nulPayload ≠ END_MESSAGE ∧ nulPayload.length = 13 ∧ nulPayload.length ≤ 63 ∧
    serverLoop (List.replicate 64 0) [ServerMsg.msg nulPayload 2] = ⟨[], .finished⟩ := by
  decide

/-- Claim C4 as amended: after every receive the buffer is null-terminated
at index `bytesRead` before the comparison, and for every payload that
contains no null byte the sentinel comparison depends on exactly the
`bytesRead` received bytes — it matches iff the payload equals
`END_MESSAGE`, independently of the stale buffer contents beyond the
terminator (the statement holds for every buffer `buf` of length 64) and of
the fixed buffer size. For payloads with an embedded null byte the
comparison only sees the bytes before the first null. -/
theorem sentinel_compare_amended (buf p : List Nat) (hb : buf.length = 64)
    (hp : p.length ≤ 63) (h0 : 0 ∉ p) :
    ((writeBytes buf p).set p.length 0)[p.length]? = some 0 ∧
    (cString ((writeBytes buf p).set p.length 0) = END_MESSAGE ↔ p = END_MESSAGE) := by
  have hd : buf.drop p.length ≠ [] := drop_ne_nil_of_lt buf p.length (by omega)
  constructor
  · unfold writeBytes
    rw [set_append_cons_zero p _ hd]
    exact getElem_append_cons_zero p _
  · rw [cString_writeBytes buf p (by omega) h0]

/-- Witness for the amended C4: a stale buffer full of the sentinel does
not make a short payload match. -/
theorem sentinel_compare_amended_witness :
    ((writeBytes (END_MESSAGE ++ END_MESSAGE ++ END_MESSAGE ++ END_MESSAGE ++
          END_MESSAGE ++ [69, 78, 68, 95, 77, 69, 83, 83, 65]) helloMsg).set
        helloMsg.length 0)[helloMsg.length]? = some 0 ∧
    (cString ((writeBytes (END_MESSAGE ++ END_MESSAGE ++ END_MESSAGE ++ END_MESSAGE ++
            END_MESSAGE ++ [69, 78, 68, 95, 77, 69, 83, 83, 65]) helloMsg).set
          helloMsg.length 0) = END_MESSAGE ↔ helloMsg = END_MESSAGE) :=
  sentinel_compare_amended
    (END_MESSAGE ++ END_MESSAGE ++ END_MESSAGE ++ END_MESSAGE ++
      END_MESSAGE ++ [69, 78, 68, 95, 77, 69, 83, 83, 65])
    helloMsg (by decide) (by decide) (by decide)

/-- A client environment whose name lookup fails with status 1. -/
def clientEnvStatusOne : ClientEnv := ⟨1, 0, 0, 5, .recvData [], 11, List.replicate 64 0⟩

/-- The same client environment with lookup status 2. -/
def clientEnvStatusTwo : ClientEnv := ⟨2, 0, 0, 5, .recvData [], 11, List.replicate 64 0⟩

/-- Counterexample to C5: the thrown error is the constant message
`"getaddrinfo error"` — two different non-zero lookup status codes produce
byte-for-byte identical runs, so the error does not carry the status code
(nor does any other step's error carry the OS status). -/
theorem resolution_status_cex :
    clientEnvStatusOne.gaiStatus ≠ clientEnvStatusTwo.gaiStatus ∧
    setup_client clientEnvStatusOne = setup_client clientEnvStatusTwo ∧
    (setup_client clientEnvStatusOne).result = .error "getaddrinfo error" ∧
    setup_server ⟨1, 3, 0, 0, 4, List.replicate 64 0, []⟩ =
      setup_server ⟨2, 3, 0, 0, 4, List.replicate 64 0, []⟩ := by
  decide

/-- Claim C5 as amended: a non-zero lookup status makes resolution fail, and
every failing step surfaces as an error carrying that step's fixed message
(`"getaddrinfo error"`, `"socket error"`, `"bind error"`, `"listen error"`,
`"client error"` for accept, `"connect error"`); the underlying OS status
code is not part of the error. -/
theorem error_carries_step_name :
    (∀ env : ServerEnv,
      (env.gaiStatus ≠ 0 → (setup_server env).result = .error "getaddrinfo error") ∧
      (env.gaiStatus = 0 → env.socketRet = -1 →
        (setup_server env).result = .error "socket error") ∧
      (env.gaiStatus = 0 → env.socketRet ≠ -1 → env.bindRet = -1 →
        (setup_server env).result = .error "bind error") ∧
      (env.gaiStatus = 0 → env.socketRet ≠ -1 → env.bindRet ≠ -1 → env.listenRet = -1 →
        (setup_server env).result = .error "listen error") ∧
      (env.gaiStatus = 0 → env.socketRet ≠ -1 → env.bindRet ≠ -1 → env.listenRet ≠ -1 →
        env.acceptRet = -1 → (setup_server env).result = .error "client error")) ∧
    (∀ env : ClientEnv,
      (env.gaiStatus ≠ 0 → (setup_client env).result = .error "getaddrinfo error") ∧
      (env.gaiStatus = 0 → env.socketRet = -1 →
        (setup_client env).result = .error "socket error") ∧
      (env.gaiStatus = 0 → env.socketRet ≠ -1 → env.connectRet = -1 →
        (setup_client env).result = .error "connect error")) := by
  constructor
  · intro env
    refine ⟨fun h0 => ?_, fun h0 h1 => ?_, fun h0 h1 h2 => ?_, fun h0 h1 h2 h3 => ?_,
      fun h0 h1 h2 h3 h4 => ?_⟩
    · simp [setup_server, h0]
    · simp [setup_server, h0, h1]
    · simp [setup_server, h0, h1, h2]
    · simp [setup_server, h0, h1, h2, h3]
    · simp [setup_server, h0, h1, h2, h3, h4]
  · intro env
    refine ⟨fun h0 => ?_, fun h0 h1 => ?_, fun h0 h1 h2 => ?_⟩
    · simp [setup_client, h0]
    · simp [setup_client, h0, h1]
    · simp [setup_client, h0, h1, h2]

/-- Witness for the amended C5 at concrete inputs. -/
theorem error_carries_step_name_witness :
    (setup_server ⟨7, 3, 0, 0, 4, List.replicate 64 0, []⟩).result =
      .error "getaddrinfo error" ∧
    (setup_server ⟨0, 3, -1, 0, 4, List.replicate 64 0, []⟩).result = .error "bind error" ∧
    (setup_client ⟨0, -1, 0, 5, .recvData [], 11, List.replicate 64 0⟩).result =
      .error "socket error" :=
  ⟨(error_carries_step_name.1 ⟨7, 3, 0, 0, 4, List.replicate 64 0, []⟩).1 (by decide),
   (error_carries_step_name.1 ⟨0, 3, -1, 0, 4, List.replicate 64 0, []⟩).2.2.1 rfl
     (by decide) rfl,
   (error_carries_step_name.2 ⟨0, -1, 0, 5, .recvData [], 11, List.replicate 64 0⟩).2.1
     rfl rfl⟩

/-- Claim C6: every send verifies that the reported byte count equals the
payload length; a short (or failed) write immediately ends the run with the
`"send error"` exception, with no retry — on the server's `"OK"` and on the
client's `"hello"` and `"END_MESSAGE"`. -/
theorem short_write_fatal :
    (∀ buf p w rest, buf.length = 64 → p.length ≤ 63 → 0 ∉ p → p ≠ [] → p ≠ END_MESSAGE →
      w ≠ 2 → serverLoop buf (ServerMsg.msg p w :: rest) = ⟨[OK_MSG], .sendError⟩) ∧
    (∀ env : ServerEnv, env.gaiStatus = 0 → env.socketRet ≠ -1 → env.bindRet ≠ -1 →
      env.listenRet ≠ -1 → env.acceptRet ≠ -1 →
      (serverLoop env.buf env.msgs).outcome = .sendError →
      (setup_server env).result = .error "send error") ∧
    (∀ env : ClientEnv, env.gaiStatus = 0 → env.socketRet ≠ -1 → env.connectRet ≠ -1 →
      env.sendHelloRet ≠ 5 → (setup_client env).result = .error "send error") ∧
    (∀ env : ClientEnv, ∀ p, env.gaiStatus = 0 → env.socketRet ≠ -1 → env.connectRet ≠ -1 →
      env.sendHelloRet = 5 → env.recvAck = .recvData p → env.sendEndRet ≠ 11 →
      (setup_client env).result = .error "send error") := by
  refine ⟨?_, ?_, ?_, ?_⟩
  · intro buf p w rest hb hp h0 hne hns hw
    rw [serverLoop_step buf p w rest hb hp h0 hne]
    simp [hns, hw]
  · intro env h0 h1 h2 h3 h4 hout
    simp [setup_server, h0, h1, h2, h3, h4, hout]
  · intro env h0 h1 h2 h3
    simp [setup_client, h0, h1, h2, h3]
  · intro env p h0 h1 h2 h3 h4 h5
    simp [setup_client, h0, h1, h2, h3, h4, h5]

/-- Witness for C6: a send of `"OK"` reporting 1 byte written, a `"hello"`
send reporting 3, and an `"END_MESSAGE"` send reporting 7 all fail. -/
theorem short_write_fatal_witness :
    serverLoop (List.replicate 64 0) [ServerMsg.msg helloMsg 1] = ⟨[OK_MSG], .sendError⟩ ∧
    (setup_server ⟨0, 3, 0, 0, 4, List.replicate 64 0, [ServerMsg.msg helloMsg 1]⟩).result =
      .error "send error" ∧
    (setup_client ⟨0, 3, 0, 3, .recvData [], 11, List.replicate 64 0⟩).result =
      .error "send error" ∧
    (setup_client ⟨0, 3, 0, 5, .recvData [], 7, List.replicate 64 0⟩).result =
      .error "send error" :=
  ⟨short_write_fatal.1 (List.replicate 64 0) helloMsg 1 [] (by decide) (by decide) (by decide)
     (by decide) (by decide) (by decide),
   short_write_fatal.2.1 ⟨0, 3, 0, 0, 4, List.replicate 64 0, [ServerMsg.msg helloMsg 1]⟩
     rfl (by decide) (by decide) (by decide) (by decide) (by decide),
   short_write_fatal.2.2.1 ⟨0, 3, 0, 3, .recvData [], 11, List.replicate 64 0⟩
     rfl (by decide) (by decide) (by decide),
   short_write_fatal.2.2.2 ⟨0, 3, 0, 5, .recvData [], 7, List.replicate 64 0⟩ []
     rfl (by decide) (by decide) rfl rfl (by decide)⟩

/-- Claim C7: on every exit path (normal return or any thrown error) the
descriptors closed are exactly the descriptors acquired, in reverse
acquisition order, and the resolved address list is freed iff it was
acquired; in particular a failing client `connect` closes the one socket it
had created. (`blocked` runs never exit, so the destructor has not run
there.) -/
theorem resources_released_on_every_exit :
    (∀ env : ServerEnv, (setup_server env).result ≠ .blocked →
      closedFds (setup_server env).resEvents =
        (acquiredFds (setup_server env).resEvents).reverse ∧
      (Event.freedAddr ∈ (setup_server env).resEvents ↔
        Event.gotAddr ∈ (setup_server env).resEvents)) ∧
    (∀ env : ClientEnv,
      closedFds (setup_client env).resEvents =
        (acquiredFds (setup_client env).resEvents).reverse ∧
      (Event.freedAddr ∈ (setup_client env).resEvents ↔
        Event.gotAddr ∈ (setup_client env).resEvents)) ∧
    (∀ env : ClientEnv, env.gaiStatus = 0 → env.socketRet ≠ -1 → env.connectRet = -1 →
      (setup_client env).result = .error "connect error" ∧
      closedFds (setup_client env).resEvents = [env.socketRet]) := by
  refine ⟨?_, ?_, ?_⟩
  · intro env hnb
    by_cases h0 : env.gaiStatus = 0
    · by_cases h1 : env.socketRet = -1
      · simp [setup_server, h0, h1, destructRAII, initSocketInfos, closedFds, acquiredFds]
      · by_cases h2 : env.bindRet = -1
        · simp [setup_server, h0, h1, h2, destructRAII, closedFds, acquiredFds]
        · by_cases h3 : env.listenRet = -1
          · simp [setup_server, h0, h1, h2, h3, destructRAII, closedFds, acquiredFds]
          · by_cases h4 : env.acceptRet = -1
            · simp [setup_server, h0, h1, h2, h3, h4, destructRAII, closedFds, acquiredFds]
            · cases hout : (serverLoop env.buf env.msgs).outcome with
              | finished =>
                simp [setup_server, h0, h1, h2, h3, h4, hout, destructRAII, closedFds,
                  acquiredFds]
              | recvError =>
                simp [setup_server, h0, h1, h2, h3, h4, hout, destructRAII, closedFds,
                  acquiredFds]
              | sendError =>
                simp [setup_server, h0, h1, h2, h3, h4, hout, destructRAII, closedFds,
                  acquiredFds]
              | blocked =>
                exact absurd (by simp [setup_server, h0, h1, h2, h3, h4, hout]) hnb
    · simp [setup_server, h0, destructRAII, initSocketInfos, closedFds, acquiredFds]
  · intro env
    by_cases h0 : env.gaiStatus = 0
    · by_cases h1 : env.socketRet = -1
      · simp [setup_client, h0, h1, destructRAII, initSocketInfos, closedFds, acquiredFds]
      · by_cases h2 : env.connectRet = -1
        · simp [setup_client, h0, h1, h2, destructRAII, closedFds, acquiredFds]
        · by_cases h3 : env.sendHelloRet = 5
          · cases h4 : env.recvAck with
            | recvErr =>
              simp [setup_client, h0, h1, h2, h3, h4, destructRAII, closedFds, acquiredFds]
            | recvData p =>
              by_cases h5 : env.sendEndRet = 11
              · simp [setup_client, h0, h1, h2, h3, h4, h5, destructRAII, closedFds,
                  acquiredFds]
              · simp [setup_client, h0, h1, h2, h3, h4, h5, destructRAII, closedFds,
                  acquiredFds]
          · simp [setup_client, h0, h1, h2, h3, destructRAII, closedFds, acquiredFds]
    · simp [setup_client, h0, destructRAII, initSocketInfos, closedFds, acquiredFds]
  · intro env h0 h1 h2
    constructor <;> simp [setup_client, h0, h1, h2, destructRAII, closedFds]

/-- Witness for C7: a client whose `connect` fails closes exactly its one
socket and frees the address list. -/
theorem resources_released_on_every_exit_witness :
    (setup_client ⟨0, 3, -1, 5, .recvData [], 11, List.replicate 64 0⟩).result =
      .error "connect error" ∧
    closedFds (setup_client ⟨0, 3, -1, 5, .recvData [], 11, List.replicate 64 0⟩).resEvents =
      [(3 : Int)] :=
  ⟨(resources_released_on_every_exit.2.2 ⟨0, 3, -1, 5, .recvData [], 11, List.replicate 64 0⟩
      rfl (by decide) rfl).1,
   (resources_released_on_every_exit.2.2 ⟨0, 3, -1, 5, .recvData [], 11, List.replicate 64 0⟩
      rfl (by decide) rfl).2⟩

/-- Claim C8: when both the accepted-client descriptor and the listening
descriptor are held at destruction time, the destructor closes the
accepted-client descriptor first, then the listening one (reverse order of
acquisition), then frees the address list if held. -/
theorem innermost_first_destruction (s : RAIIRawSocketInfos)
    (hc : s.clientFd ≠ -1) (hs : s.socketFd ≠ -1) :
    destructRAII s = Event.closedSock s.clientFd :: Event.closedSock s.socketFd ::
      (if s.res then [Event.freedAddr] else []) := by
  simp [destructRAII, hc, hs]

/-- Witness for C8: listening descriptor 3 acquired first, accepted
descriptor 4 second; 4 is closed before 3. -/
theorem innermost_first_destruction_witness :
    destructRAII ⟨true, 3, 4⟩ =
      [Event.closedSock 4, Event.closedSock 3, Event.freedAddr] := by
  simpa using innermost_first_destruction ⟨true, 3, 4⟩ (by decide) (by decide)

/-- Claim C9: release is at-most-once — the destructor on the all-sentinel
state closes nothing, a descriptor still equal to the `-1` sentinel is never
closed, and in every server or client run each descriptor is closed at most
once (the destructor runs once per object, so nothing is double-closed). -/
theorem release_at_most_once :
    (∀ s : RAIIRawSocketInfos, s.res = false → s.socketFd = -1 → s.clientFd = -1 →
      destructRAII s = []) ∧
    (∀ s : RAIIRawSocketInfos, countClosed (-1) (destructRAII s) = 0) ∧
    (∀ env : ServerEnv, ∀ fd : Int, env.acceptRet ≠ env.socketRet →
      countClosed fd (setup_server env).resEvents ≤ 1) ∧
    (∀ env : ClientEnv, ∀ fd : Int, countClosed fd (setup_client env).resEvents ≤ 1) := by
  refine ⟨?_, ?_, ?_, ?_⟩
  · intro s h1 h2 h3
    simp [destructRAII, h1, h2, h3]
  · intro s
    by_cases hc : s.clientFd = -1 <;> by_cases hsf : s.socketFd = -1 <;>
      by_cases hr : s.res = true <;>
      simp [destructRAII, countClosed, hc, hsf, hr]
  · intro env fd hdist
    by_cases h0 : env.gaiStatus = 0
    · by_cases h1 : env.socketRet = -1
      · simp [setup_server, h0, h1, destructRAII, initSocketInfos, countClosed]
      · by_cases h2 : env.bindRet = -1
        · simp [setup_server, h0, h1, h2, destructRAII, countClosed]
          split_ifs <;> omega
        · by_cases h3 : env.listenRet = -1
          · simp [setup_server, h0, h1, h2, h3, destructRAII, countClosed]
            split_ifs <;> omega
          · by_cases h4 : env.acceptRet = -1
            · simp [setup_server, h0, h1, h2, h3, h4, destructRAII, countClosed]
              split_ifs <;> omega
            · cases hout : (serverLoop env.buf env.msgs).outcome with
              | finished =>
                simp [setup_server, h0, h1, h2, h3, h4, hout, destructRAII, countClosed]
                split_ifs <;> omega
              | recvError =>
                simp [setup_server, h0, h1, h2, h3, h4, hout, destructRAII, countClosed]
                split_ifs <;> omega
              | sendError =>
                simp [setup_server, h0, h1, h2, h3, h4, hout, destructRAII, countClosed]
                split_ifs <;> omega
              | blocked =>
                simp [setup_server, h0, h1, h2, h3, h4, hout, countClosed]
    · simp [setup_server, h0, destructRAII, initSocketInfos, countClosed]
  · intro env fd
    by_cases h0 : env.gaiStatus = 0
    · by_cases h1 : env.socketRet = -1
      · simp [setup_client, h0, h1, destructRAII, initSocketInfos, countClosed]
      · by_cases h2 : env.connectRet = -1
        · simp [setup_client, h0, h1, h2, destructRAII, countClosed]
          split_ifs <;> omega
        · by_cases h3 : env.sendHelloRet = 5
          · cases h4 : env.recvAck with
            | recvErr =>
              simp [setup_client, h0, h1, h2, h3, h4, destructRAII, countClosed]
              split_ifs <;> omega
            | recvData p =>
              by_cases h5 : env.sendEndRet = 11
              · simp [setup_client, h0, h1, h2, h3, h4, h5, destructRAII, countClosed]
                split_ifs <;> omega
              · simp [setup_client, h0, h1, h2, h3, h4, h5, destructRAII, countClosed]
                split_ifs <;> omega
          · simp [setup_client, h0, h1, h2, h3, destructRAII, countClosed]
            split_ifs <;> omega
    · simp [setup_client, h0, destructRAII, initSocketInfos, countClosed]

/-- Witness for C9 at concrete inputs. -/
theorem release_at_most_once_witness :
    destructRAII initSocketInfos = [] ∧
    countClosed (-1) (destructRAII ⟨true, 3, -1⟩) = 0 ∧
    countClosed 3
      (setup_server ⟨0, 3, 0, 0, 4, List.replicate 64 0,
        [ServerMsg.msg END_MESSAGE 2]⟩).resEvents ≤ 1 ∧
    countClosed 3
      (setup_client ⟨0, 3, 0, 5, .recvData [], 11, List.replicate 64 0⟩).resEvents ≤ 1 :=
  ⟨release_at_most_once.1 initSocketInfos rfl rfl rfl,
   release_at_most_once.2.1 ⟨true, 3, -1⟩,
   release_at_most_once.2.2.1 ⟨0, 3, 0, 0, 4, List.replicate 64 0,
     [ServerMsg.msg END_MESSAGE 2]⟩ 3 (by decide),
   release_at_most_once.2.2.2 ⟨0, 3, 0, 5, .recvData [], 11, List.replicate 64 0⟩ 3⟩

/-- Claim C10: a zero-length acknowledgement read (server closed first)
does not abort the client: it null-terminates the empty buffer
(`buffer[0] = 0`), still sends `END_MESSAGE`, and returns normally; only a
failed (negative) read throws `"recv error"`. -/
theorem client_zero_read_proceeds (env : ClientEnv)
    (h1 : env.gaiStatus = 0) (h2 : env.socketRet ≠ -1) (h3 : env.connectRet ≠ -1)
    (h4 : env.sendHelloRet = 5) (h6 : env.sendEndRet = 11) :
    (env.recvAck = .recvData [] →
      (setup_client env).result = .ok ∧
      (setup_client env).ackBuf = some (env.buf.set 0 0) ∧
      (setup_client env).ioTrace =
        [WireEv.sentB helloMsg, WireEv.recvCall 63, WireEv.sentB END_MESSAGE]) ∧
    (env.recvAck = .recvErr → (setup_client env).result = .error "recv error") := by
  constructor
  · intro h5
    refine ⟨?_, ?_, ?_⟩ <;> simp [setup_client, h1, h2, h3, h4, h5, h6, writeBytes]
  · intro h5
    simp [setup_client, h1, h2, h3, h4, h5]

/-- Witness for C10 at concrete inputs. -/
theorem client_zero_read_proceeds_witness :
    (setup_client ⟨0, 3, 0, 5, .recvData [], 11, List.replicate 64 0⟩).result = .ok ∧
    (setup_client ⟨0, 3, 0, 5, .recvData [], 11, List.replicate 64 0⟩).ackBuf =
      some ((List.replicate 64 0).set 0 0) ∧
    (setup_client ⟨0, 3, 0, 5, .recvData [], 11, List.replicate 64 0⟩).ioTrace =
      [WireEv.sentB helloMsg, WireEv.recvCall 63, WireEv.sentB END_MESSAGE] :=
  (client_zero_read_proceeds ⟨0, 3, 0, 5, .recvData [], 11, List.replicate 64 0⟩
    rfl (by decide) (by decide) rfl rfl).1 rfl

end BasicNetworking
